import Mathlib

/-!
Shallow embedding of `src/pyscenic/regulome.py` (functions `module2regulome` and
`derive_regulomes`), over an arbitrary linear ordered field `K` standing for the
floating-point scalars.  The external numerical kernels that the source treats as
black boxes (`recovery`, `leading_edge`, `Regulome.union`, the square root and
natural logarithm used by `numpy.std` and `math.log`, and the annotation loader)
are passed in as function parameters, exactly at the interface boundary the
source calls them.  Fallible code (the `np.random.randint(0, m)` call, which
raises `ValueError` when `m <= 0`) is modelled with `Except`.  The single random
draw made by `np.random.randint` is modelled by an explicit `rand : Nat`
argument, reduced into the live range `[0, m)` exactly as the library guarantees
for its result.
-/

namespace PyScenic

/-- Embedding of `genesig.Regulome` (a `GeneSignature` with extra fields), as the
pipeline consumes and produces it: a named weighted gene collection carrying a
transcription factor, a score, a nomenclature tag and a context label set.
Only the fields read or written by `regulome.py` are modelled. -/
structure Regulome (K : Type) where
  name : String
  score : K
  nomenclature : String
  context : Finset String
  transcription_factor : String
  gene2weights : List (String × K)
deriving DecidableEq

/-- Weight lookup `module[gene]` on a gene signature (source line 44 reads
`module[gene]` for genes that are present in the module, so the default is
never hit on source-reachable inputs). -/
def Regulome.weight {K : Type} [Inhabited K] (m : Regulome K) (g : String) : K :=
  (m.gene2weights.lookup g).getD default

/-- The rectangular table returned by `db.load(module)`: row labels are feature
ids, column labels are gene ids, cells are integer rank positions
(`df.index.values`, `df.columns.values`, `df.values` at source line 43). -/
structure RankTable where
  features : List String
  genes : List String
  rankings : List (List Nat)
deriving DecidableEq

/-- Embedding of the `RankingDatabase` interface used by the source:
`db.name`, `db.total_genes` and `db.load(module)`. -/
structure RankingDatabase (K : Type) where
  name : String
  total_genes : Nat
  load : Regulome K → RankTable

/-- One row of the motif annotation table, keyed by
(gene_name = transcription factor, motif id), with the motif similarity
q-value and the orthologous identity columns.  `none` stands for a
floating-point NaN entry. -/
structure AnnRow (K : Type) where
  gene_name : String
  motif_id : String
  qval : Option K
  orth : Option K
deriving DecidableEq

/-- One row of the `enriched_features` frame built at source lines 52-56:
feature id with its NES and AUC values. -/
structure EnrichedRow (K : Type) where
  feature : String
  nes : K
  auc : K
deriving DecidableEq

/-- One row of the `annotated_features` frame produced by the inner merge at
source line 61: the enriched columns joined with the annotation columns. -/
structure JoinedRow (K : Type) where
  feature : String
  nes : K
  auc : K
  qval : Option K
  orth : Option K
deriving DecidableEq

/-- The baseline handed to `leading_edge` as `avg2stdrcc`.  On the
`avgrcc_sample_frac is None` path it is a per-rank-depth curve
(`rccs.mean(axis=0) + 2*rccs.std(axis=0)` over the 2-d matrix); on the sampling
path `rccs[sample_idx, :]` is a single 1-d row, so `mean(axis=0)` and
`std(axis=0)` collapse to scalars.  Both shapes are values of this type. -/
inductive Baseline (K : Type) where
  | vec (v : List K)
  | scalar (c : K)
deriving DecidableEq

section Defs

variable {K : Type} [LinearOrderedField K]

/-- Arithmetic mean of a list, `numpy.mean` (division by zero only in the empty
case, which every caller guards). -/
def mean (l : List K) : K := l.sum / (l.length : K)

/-- Population variance of a list, the square of `numpy.std` (ddof = 0). -/
def pvariance (l : List K) : K :=
  ((l.map fun x => (x - mean l) ^ 2).sum) / (l.length : K)

/-- The boolean `ness >= nes_threshold` of source line 51 for one AUC value `a`,
with `ness = (a - mean) / std`.  When the standard deviation `σ` is zero the
float division produces NaN (numerator zero, never selected) or a signed
infinity (numerator nonzero, selected exactly when positive); the IEEE comparison
`x >= t` is false for NaN and -inf and true for +inf, which is what the
`σ = 0` branch encodes. -/
def nesSelect (σ μ t a : K) : Bool :=
  if σ = 0 then decide (μ < a) else decide (t ≤ (a - μ) / σ)

/-- The boolean mask `enriched_features_idx` of source line 51, one entry per
feature row. -/
def enrichMask (msqrt : K → K) (aucs : List K) (t : K) : List Bool :=
  aucs.map fun a => nesSelect (msqrt (pvariance aucs)) (mean aucs) t a

/-- Numpy boolean-mask indexing `xs[mask]` used at source lines 53, 55, 56
and 83. -/
def applyMask {α : Type} (mask : List Bool) (l : List α) : List α :=
  ((l.zip mask).filter fun p => p.2).map Prod.fst

/-- The `enriched_features` frame of source lines 52-56: the features whose NES
passes the threshold, each with its NES and AUC value.  Filtering a row list by
the predicate on the AUC is the same row selection as applying
`enrichMask` to each column array. -/
def enrichedRows (msqrt : K → K) (features : List String) (aucs : List K)
    (t : K) : List (EnrichedRow K) :=
  ((features.zip aucs).filter fun p =>
      nesSelect (msqrt (pvariance aucs)) (mean aucs) t p.2).map
    fun p => ⟨p.1, (p.2 - mean aucs) / msqrt (pvariance aucs), p.2⟩

/-- The inner merge of source line 61: `enriched_features` (indexed by the pair
(module.transcription_factor, feature id)) joined with the annotation table on
equal keys, keeping the left row order and, per left row, every matching
annotation row. -/
def innerJoin (tf : String) (enriched : List (EnrichedRow K))
    (ann : List (AnnRow K)) : List (JoinedRow K) :=
  enriched.flatMap fun e =>
    (ann.filter fun a => decide (a.gene_name = tf ∧ a.motif_id = e.feature)).map
      fun a => ⟨e.feature, e.nes, e.auc, a.qval, a.orth⟩

/-- Modelled from the spec: `GeneSignature.noweights()` (genesig.py is not under
src/), "returns a uniform-weight copy" of the signature; the uniform weight is
taken to be 1. -/
def noweights (m : Regulome K) : Regulome K :=
  { m with gene2weights := m.gene2weights.map fun p => (p.1, 1) }

/-- `functools.reduce(f, l)` without an initial element: folds from the left,
`none` on the empty list (where Python would raise; all call sites here are
guarded non-empty). -/
def reduce1 {α : Type} (f : α → α → α) : List α → Option α
  | [] => none
  | h :: t => some (t.foldl f h)

/-- The per-column curve `rccs.mean(axis=0) + 2.0 * rccs.std(axis=0)` of source
lines 67-68, on the 2-d recovery-curve matrix. -/
def avg2stdVec (msqrt : K → K) (rccs : List (List K)) : List K :=
  rccs.transpose.map fun col => mean col + 2 * msqrt (pvariance col)

/-- The local `score` function of source lines 76-79:
`nes * -log(q)/100` when the q-value is defined (not NaN) and nonzero, else
`nes`; the result is multiplied by the orthologous identity when that is
defined.  `mlog` stands for `math.log`. -/
def scoreFn (mlog : K → K) (nes : K) (qval orth : Option K) : K :=
  let s :=
    match qval with
    | none => nes
    | some qv => if qv = 0 then nes else nes * -mlog qv / 100
  match orth with
  | none => s
  | some o => s * o

/-- The scoring rule as claim C5 words it, stated here only for comparison with
`scoreFn`: the score equals NES exactly when the q-value is undefined-or-zero
AND the identity is undefined; in every other case it is
`NES * (-ln q)/100`, multiplied by the identity when that is defined. -/
def claimScoreC5 (mlog : K → K) (nes : K) (qval orth : Option K) : K :=
  if (qval = none ∨ qval = some 0) ∧ orth = none then nes
  else nes * -mlog (qval.getD 0) / 100 * (orth.getD 1)

variable [FloorRing K]

/-- The baseline computation of source lines 66-73.  Without
`avgrcc_sample_frac` the baseline is the per-column curve over all rows.  With
it, `sample_idx = np.random.randint(0, int(n_features*frac))` draws ONE integer
(raising `ValueError: low >= high` when `int(n_features*frac) <= 0`), so
`rccs[sample_idx, :]` is a single row and `mean(axis=0)` / `std(axis=0)` on
that 1-d row collapse to scalars over the row's entries. -/
def baselineOf (msqrt : K → K) (rccs : List (List K)) (n_features : Nat)
    (frac? : Option K) (rand : Nat) : Except String (Baseline K) :=
  match frac? with
  | none => Except.ok (Baseline.vec (avg2stdVec msqrt rccs))
  | some frac =>
    if ⌊(n_features : K) * frac⌋ ≤ 0 then Except.error "ValueError: low >= high"
    else
      let sample_idx := rand % (⌊(n_features : K) * frac⌋).toNat
      let row := rccs.getD sample_idx []
      Except.ok (Baseline.scalar (mean row + 2 * msqrt (pvariance row)))

/-- The baseline computation as claim C3 words it, stated here only for
comparison with `baselineOf`: the mean and mean + 2*std curves taken over the
contiguous row range `[0, floor(n_features * frac))` of the recovery-curve
matrix (a per-rank-depth vector over several rows, not a single row). -/
def claimBaselineRange (msqrt : K → K) (rccs : List (List K)) (n_features : Nat)
    (frac : K) : Baseline K :=
  Baseline.vec (avg2stdVec msqrt (rccs.take (⌊(n_features : K) * frac⌋).toNat))

/-- The argument triples of the `leading_edge` invocations of source line 83:
`zip(annotated_features.iterrows(), rccs[enriched_features_idx, :],
rankings[enriched_features_idx, :])`.  The zip is positional: the i-th
annotated row is paired with the i-th ENRICHED row of the curve and rank
matrices, regardless of which feature either row describes. -/
def leadingEdgeCalls (msqrt : K → K) (aucs : List K) (t : K)
    (rccs : List (List K)) (rankings : List (List Nat))
    (annotated : List (JoinedRow K)) :
    List (JoinedRow K × List K × List Nat) :=
  let mask := enrichMask msqrt aucs t
  (annotated.zip ((applyMask mask rccs).zip (applyMask mask rankings))).map
    fun p => (p.1, p.2.1, p.2.2)

/-- The `Regulome(...)` constructions of source lines 84-91, one per element of
the zip of source line 83. -/
def builtRegulomes (mlog : K → K)
    (leading_edge : List K → Baseline K → List Nat → List String →
      Regulome K → List (String × K))
    (db : RankingDatabase K) (module : Regulome K) (genes : List String)
    (avg2stdrcc : Baseline K) (weighted_recovery : Bool)
    (calls : List (JoinedRow K × List K × List Nat)) : List (Regulome K) :=
  calls.map fun c =>
    { name := module.name
      score := scoreFn mlog c.1.nes c.1.qval c.1.orth
      nomenclature := module.nomenclature
      context := module.context ∪ {db.name}
      transcription_factor := module.transcription_factor
      gene2weights := leading_edge c.2.1 avg2stdrcc c.2.2 genes
        (if weighted_recovery then module else noweights module) }

/-- Embedding of `module2regulome` (source lines 23-94).  The external kernels
`recovery` and `leading_edge`, the external `Regulome.union`, and the numeric
primitives `msqrt` (numpy std's square root) and `mlog` (`math.log`) are
parameters.  `rand` is the draw consumed by `np.random.randint`.  Note that the
weight vector handed to `recovery` (source lines 44 and 47) is built from the
module's weights unconditionally; `weighted_recovery` is only consulted at
source line 82 to choose the module handed to `leading_edge`. -/
def module2regulome [Inhabited K]
    (recovery : RankTable → Nat → List K → Nat → K → List (List K) × List K)
    (leading_edge : List K → Baseline K → List Nat → List String →
      Regulome K → List (String × K))
    (union : Regulome K → Regulome K → Regulome K)
    (msqrt mlog : K → K)
    (db : RankingDatabase K) (module : Regulome K)
    (motif_ann : List (AnnRow K))
    (rank_threshold : Nat) (auc_threshold nes_threshold : K)
    (avgrcc_sample_frac : Option K) (weighted_recovery : Bool) (rand : Nat) :
    Except String (Option (Regulome K)) :=
  let df := db.load module
  let ra := recovery df db.total_genes (df.genes.map module.weight)
    rank_threshold auc_threshold
  let enriched := enrichedRows msqrt df.features ra.2 nes_threshold
  if enriched = [] then Except.ok none
  else
    let annotated := innerJoin module.transcription_factor enriched motif_ann
    if annotated = [] then Except.ok none
    else
      match baselineOf msqrt ra.1 df.features.length avgrcc_sample_frac rand with
      | Except.error e => Except.error e
      | Except.ok avg2stdrcc =>
        Except.ok (reduce1 union
          (builtRegulomes mlog leading_edge db module df.genes avg2stdrcc
            weighted_recovery
            (leadingEdgeCalls msqrt ra.2 nes_threshold ra.1 df.rankings
              annotated)))

/-- One delayed task of the batch (source lines 127-128): `module2regulome`
applied to the seven positionally forwarded arguments `(db, gs,
motif_annotations, rank_threshold, auc_threshold, nes_threshold,
avgrcc_sample_frac)`.  `weighted_recovery` is NOT among them, so every task
runs with the callee default `False`; `randv` is the random draw this task
will consume. -/
def deriveTask [Inhabited K]
    (recovery : RankTable → Nat → List K → Nat → K → List (List K) × List K)
    (leading_edge : List K → Baseline K → List Nat → List String →
      Regulome K → List (String × K))
    (union : Regulome K → Regulome K → Regulome K)
    (msqrt mlog : K → K) (motif_ann : List (AnnRow K))
    (rank_threshold : Nat) (auc_threshold nes_threshold : K)
    (avgrcc_sample_frac : Option K)
    (db : RankingDatabase K) (gs : Regulome K) (randv : Nat) :
    Except String (Option (Regulome K)) :=
  module2regulome recovery leading_edge union msqrt mlog db gs motif_ann
    rank_threshold auc_threshold nes_threshold avgrcc_sample_frac false randv

/-- Embedding of `derive_regulomes` (source lines 97-130).  The annotation
loader is a parameter (`load_motif_annotations` lives in utils.py).  The task
set is the full cross product, database-major then module-minor (source line
129: `for db in rnkdbs for gs in modules`); each task's random draw is `rand i`
for its position `i`, and each task is `deriveTask`, which leaves
`weighted_recovery` at its default `False` (the parameter accepted at source
line 102 is never forwarded).  The dask graph evaluates the per-pair tasks
first (the generator of delayeds is unpacked into task dependencies), so a
per-task exception propagates out of `compute`; when all tasks complete, the
collection node applies `compose(list, partial(filter, function=not_none))`
(source line 126) to the list of results — but builtin `filter` accepts no
keyword arguments, so this application unconditionally raises `TypeError`.
The batch therefore NEVER returns the filtered regulome list: it raises a task
error or the collection TypeError.  `num_workers` only sizes the dask worker
pool and does not enter the task graph. -/
def derive_regulomes [Inhabited K]
    (recovery : RankTable → Nat → List K → Nat → K → List (List K) × List K)
    (leading_edge : List K → Baseline K → List Nat → List String →
      Regulome K → List (String × K))
    (union : Regulome K → Regulome K → Regulome K)
    (msqrt mlog : K → K)
    (loader : String → K → K → List (AnnRow K))
    (rnkdbs : List (RankingDatabase K)) (modules : List (Regulome K))
    (motif_ann_fname : String)
    (rank_threshold : Nat) (auc_threshold nes_threshold : K)
    (motif_similarity_fdr orthologuous_identity_threshold : K)
    (avgrcc_sample_frac : Option K) (weighted_recovery : Bool)
    (num_workers : Option Nat) (rand : Nat → Nat) :
    Except String (List (Regulome K)) :=
  let motif_ann := loader motif_ann_fname motif_similarity_fdr
    orthologuous_identity_threshold
  let tasks := rnkdbs.flatMap fun db => modules.map fun gs => (db, gs)
  match tasks.enum.mapM (fun p =>
      deriveTask recovery leading_edge union msqrt mlog motif_ann
        rank_threshold auc_threshold nes_threshold avgrcc_sample_frac
        p.2.1 p.2.2 (rand p.1)) with
  | Except.error e => Except.error e
  | Except.ok _ =>
      Except.error "TypeError: filter() takes no keyword arguments"

end Defs

namespace Toy

/-- Toy square root over `ℚ`, defined on the variance values the toy pipelines
produce (any function is admissible here: numpy's std is a black-box numeric
primitive to the pipeline). -/
def qSqrt : ℚ → ℚ :=
  fun x => if x = 16 then 4 else if x = 8 then 2 else if x = 4 then 2 else 0

/-- Toy logarithm (never consulted on the toy inputs, whose q-values are NaN). -/
def mlog0 : ℚ → ℚ := fun _ => 0

/-- Toy aggregation operator for `Regulome.union`. -/
def uniFst : Regulome ℚ → Regulome ℚ → Regulome ℚ := fun a _ => a

/-- Toy leading-edge kernel that reports the weights of the module it was
handed, making the module argument of source line 91 observable. -/
def leW : List ℚ → Baseline ℚ → List Nat → List String → Regulome ℚ →
    List (String × ℚ) :=
  fun _ _ _ _ m => m.gene2weights

/-- Toy leading-edge kernel that reports the recovery-curve row it was handed,
making the `rcc` argument of source line 91 observable. -/
def leRC : List ℚ → Baseline ℚ → List Nat → List String → Regulome ℚ →
    List (String × ℚ) :=
  fun rcc _ _ _ _ => [("rcc0", rcc.headD 0)]

/-- Toy module: gene "g" with weight 5, transcription factor "tf". -/
def mod1 : Regulome ℚ := ⟨"m", 0, "HGNC", ∅, "tf", [("g", 5)]⟩

/-- Same as `mod1` except the weight of "g" is 7. -/
def mod4b : Regulome ℚ := ⟨"m", 0, "HGNC", ∅, "tf", [("g", 7)]⟩

/-- Toy module for the three-feature database. -/
def mod2 : Regulome ℚ := ⟨"m2", 0, "HGNC", ∅, "tf", [("g", 5)]⟩

/-- Two-feature toy ranking database. -/
def db1 : RankingDatabase ℚ := ⟨"db1", 10, fun _ => ⟨["f0", "f1"], ["g"], [[1], [2]]⟩⟩

/-- Three-feature toy ranking database. -/
def db2 : RankingDatabase ℚ :=
  ⟨"db2", 10, fun _ => ⟨["f0", "f1", "f2"], ["g"], [[1], [2], [3]]⟩⟩

/-- Toy recovery kernel: AUCs `[0, 8]` (mean 4, variance 16, std 4, NES
`[-1, 1]`), so feature "f1" alone is enriched at threshold 1. -/
def recN : RankTable → Nat → List ℚ → Nat → ℚ → List (List ℚ) × List ℚ :=
  fun _ _ _ _ _ => ([[0], [0]], [0, 8])

/-- Toy recovery kernel for three features: AUCs `[0, 6, 6]` (mean 4, variance
8, std 2, NES `[-2, 1, 1]`), so "f1" and "f2" are enriched at threshold 1;
the recovery-curve rows `[[10], [20], [30]]` tag the three features. -/
def rec2 : RankTable → Nat → List ℚ → Nat → ℚ → List (List ℚ) × List ℚ :=
  fun _ _ _ _ _ => ([[10], [20], [30]], [0, 6, 6])

/-- Toy recovery kernel that is sensitive to the weight vector it receives:
weights `[5]` give the enriching AUCs `[0, 8]`, any other weights give the
degenerate `[0, 0]`. -/
def recW : RankTable → Nat → List ℚ → Nat → ℚ → List (List ℚ) × List ℚ :=
  fun _ _ w _ _ => ([[0], [0]], if w = [5] then [0, 8] else [0, 0])

/-- Toy recovery kernel with constant AUCs (zero variance). -/
def rec7 : RankTable → Nat → List ℚ → Nat → ℚ → List (List ℚ) × List ℚ :=
  fun _ _ _ _ _ => ([[0], [0]], [3, 3])

/-- Annotation table with one row for (tf, f1); NaN q-value and identity. -/
def ann1 : List (AnnRow ℚ) := [⟨"tf", "f1", none, none⟩]

/-- Annotation table with one row for (tf, f2); NaN q-value and identity. -/
def ann2 : List (AnnRow ℚ) := [⟨"tf", "f2", none, none⟩]

/-- Toy annotation loader returning `ann1` for any file name and thresholds. -/
def loader1 : String → ℚ → ℚ → List (AnnRow ℚ) := fun _ _ _ => ann1

end Toy

/-- Joining an empty enriched-feature list against any annotation table yields
an empty join. -/
theorem innerJoin_nil {K : Type} [LinearOrderedField K] (tf : String)
    (ann : List (AnnRow K)) : innerJoin tf [] ann = [] := rfl

/-- A list with zero population variance is constant: every member equals the
mean. -/
theorem eq_mean_of_pvariance_eq_zero {K : Type} [LinearOrderedField K]
    {l : List K} (h : pvariance l = 0) {a : K} (ha : a ∈ l) : a = mean l := by
  by_contra hne
  have hlen : (0 : K) < (l.length : K) := by
    exact_mod_cast List.length_pos.mpr (List.ne_nil_of_mem ha)
  have hsq : 0 < (a - mean l) ^ 2 :=
    pow_two_pos_of_ne_zero (sub_ne_zero.mpr hne)
  have hle : (a - mean l) ^ 2 ≤ (l.map fun x => (x - mean l) ^ 2).sum := by
    refine List.single_le_sum (fun x hx => ?_) _ (List.mem_map_of_mem _ ha)
    rcases List.mem_map.mp hx with ⟨y, _, rfl⟩
    exact sq_nonneg _
  have hpos : 0 < pvariance l := by
    unfold pvariance
    exact div_pos (lt_of_lt_of_le hsq hle) hlen
  rw [h] at hpos
  exact lt_irrefl 0 hpos

/-- Every row of `enrichedRows` passed the NES threshold: its recorded NES is
at least `t`, provided the standard deviation is nonzero (so that the recorded
value is the real z-score, not an IEEE special value). -/
theorem nes_ge_of_mem_enrichedRows {K : Type} [LinearOrderedField K]
    {msqrt : K → K} {features : List String} {aucs : List K} {t : K}
    (hσ : msqrt (pvariance aucs) ≠ 0) {e : EnrichedRow K}
    (he : e ∈ enrichedRows msqrt features aucs t) : t ≤ e.nes := by
  rcases List.mem_map.mp he with ⟨p, hp, rfl⟩
  rcases List.mem_filter.mp hp with ⟨_, hpred⟩
  unfold nesSelect at hpred
  rw [if_neg hσ] at hpred
  exact of_decide_eq_true hpred

/-- C1: `derive_regulomes` does NOT invoke the single-pair deriver with all the
caller-supplied parameters, and does NOT return the non-none results: source
line 128 passes only seven positional arguments, omitting `weighted_recovery`,
so every task runs with the callee default `False`, and the collection step of
source line 126 hands builtin `filter` a keyword argument, raising `TypeError`
at compute time.  First conjunct: each task is `module2regulome` with the flag
hard-wired to `False`.  Second conjunct: `module2regulome` itself
distinguishes the two flag values on the concrete task (leading-edge weights 5
versus the unweighted 1), so the omission changes behaviour claimed to be
forwarded.  Third conjunct: the batch called with `weighted_recovery = True`
raises the collection TypeError instead of returning the non-none results
without raising. -/
theorem derive_ignores_weighted_recovery_C1 :
    (∀ db gs randv,
      deriveTask Toy.recN Toy.leW Toy.uniFst Toy.qSqrt Toy.mlog0 Toy.ann1
        1500 (1/20) 1 none db gs randv
      = module2regulome Toy.recN Toy.leW Toy.uniFst Toy.qSqrt Toy.mlog0 db gs
        Toy.ann1 1500 (1/20) 1 none false randv)
  ∧ module2regulome Toy.recN Toy.leW Toy.uniFst Toy.qSqrt Toy.mlog0 Toy.db1
      Toy.mod1 Toy.ann1 1500 (1/20) 1 none true 0
    ≠ module2regulome Toy.recN Toy.leW Toy.uniFst Toy.qSqrt Toy.mlog0 Toy.db1
      Toy.mod1 Toy.ann1 1500 (1/20) 1 none false 0
  ∧ derive_regulomes Toy.recN Toy.leW Toy.uniFst Toy.qSqrt Toy.mlog0
      Toy.loader1 [Toy.db1] [Toy.mod1] "motifs.tbl" 1500 (1/20) 1 (1/1000) 0
      none true none (fun _ => 0)
    = Except.error "TypeError: filter() takes no keyword arguments" := by
  have h1 : module2regulome Toy.recN Toy.leW Toy.uniFst Toy.qSqrt Toy.mlog0
      Toy.db1 Toy.mod1 Toy.ann1 1500 (1/20) 1 none true 0
      = Except.ok (some ⟨"m", 1, "HGNC", {"db1"}, "tf", [("g", 5)]⟩) := by
    norm_num [module2regulome, enrichedRows, nesSelect, pvariance, mean,
      innerJoin, leadingEdgeCalls, applyMask, enrichMask, baselineOf,
      builtRegulomes, reduce1, scoreFn, noweights, avg2stdVec, Regulome.weight,
      Toy.recN, Toy.leW, Toy.uniFst, Toy.qSqrt, Toy.mlog0, Toy.db1, Toy.mod1,
      Toy.ann1]
  have h2 : module2regulome Toy.recN Toy.leW Toy.uniFst Toy.qSqrt Toy.mlog0
      Toy.db1 Toy.mod1 Toy.ann1 1500 (1/20) 1 none false 0
      = Except.ok (some ⟨"m", 1, "HGNC", {"db1"}, "tf", [("g", 1)]⟩) := by
    norm_num [module2regulome, enrichedRows, nesSelect, pvariance, mean,
      innerJoin, leadingEdgeCalls, applyMask, enrichMask, baselineOf,
      builtRegulomes, reduce1, scoreFn, noweights, avg2stdVec, Regulome.weight,
      Toy.recN, Toy.leW, Toy.uniFst, Toy.qSqrt, Toy.mlog0, Toy.db1, Toy.mod1,
      Toy.ann1]
  refine ⟨fun db gs randv => rfl, ?_, ?_⟩
  · rw [h1, h2]
    intro h
    norm_num at h
  · norm_num [derive_regulomes, deriveTask, Toy.loader1, List.mapM,
      List.mapM.loop]
    rw [h2]
    rfl

/-- C2: the leading-edge kernel is NOT always invoked with the curve and rank
rows of the feature named by the annotation-join row.  Source line 83 zips the
annotation-join rows positionally against ALL enriched rows, so when the join
drops an enriched feature the remaining rows are paired with the wrong curves.
Concrete run: features f1 and f2 are enriched (curve rows `[20]` and `[30]`),
only f2 is annotated; the single leading-edge call carries f2's join row but
f1's curve row `[20]` and rank row `[2]`, while f2's own curve row is `[30]`.
The resulting regulome records curve head 20, not 30. -/
theorem misaligned_leading_edge_C2 :
    leadingEdgeCalls Toy.qSqrt [0, 6, 6] 1 [[10], [20], [30]] [[1], [2], [3]]
        (innerJoin "tf" (enrichedRows Toy.qSqrt ["f0", "f1", "f2"] [0, 6, 6] 1)
          Toy.ann2)
      = [(⟨"f2", 1, 6, none, none⟩, [20], [2])]
  ∧ ([[10], [20], [30]] : List (List ℚ)).getD 2 [] = [30]
  ∧ ([20] : List ℚ) ≠ [30]
  ∧ module2regulome Toy.rec2 Toy.leRC Toy.uniFst Toy.qSqrt Toy.mlog0 Toy.db2
      Toy.mod2 Toy.ann2 1500 (1/20) 1 none false 0
    = Except.ok (some ⟨"m2", 1, "HGNC", {"db2"}, "tf", [("rcc0", 20)]⟩) := by
  refine ⟨?_, by norm_num, by norm_num, ?_⟩
  · norm_num [leadingEdgeCalls, innerJoin, enrichedRows, nesSelect, pvariance,
      mean, applyMask, enrichMask, Toy.qSqrt, Toy.ann2, List.filter]
    rfl
  · norm_num [module2regulome, enrichedRows, nesSelect, pvariance, mean,
      innerJoin, leadingEdgeCalls, applyMask, enrichMask, baselineOf,
      builtRegulomes, reduce1, scoreFn, noweights, avg2stdVec, Regulome.weight,
      Toy.rec2, Toy.leRC, Toy.uniFst, Toy.qSqrt, Toy.mlog0, Toy.db2, Toy.mod2,
      Toy.ann2]
    rfl

/-- C4: the weight vector handed to the recovery kernel does NOT reflect the
`weighted_recovery` flag.  Source line 44 builds `weights` from the module's
weights and line 47 passes it to `recovery` unconditionally; the flag is only
consulted at line 82 for the leading-edge module.  Conjuncts 1-2: the weight
vectors the deriver computes for two modules differing only in their weights
are their actual weights.  Conjunct 3: with `weighted_recovery = False` and a
weight-sensitive recovery kernel the two modules produce different results, so
the module's weights participate in recovery-curve construction although the
flag is false. -/
theorem recovery_weights_ignore_flag_C4 :
    ((Toy.db1.load Toy.mod1).genes.map Toy.mod1.weight = [5])
  ∧ ((Toy.db1.load Toy.mod4b).genes.map Toy.mod4b.weight = [7])
  ∧ module2regulome Toy.recW Toy.leW Toy.uniFst Toy.qSqrt Toy.mlog0 Toy.db1
      Toy.mod1 Toy.ann1 1500 (1/20) 1 none false 0
    ≠ module2regulome Toy.recW Toy.leW Toy.uniFst Toy.qSqrt Toy.mlog0 Toy.db1
      Toy.mod4b Toy.ann1 1500 (1/20) 1 none false 0 := by
  have ha : module2regulome Toy.recW Toy.leW Toy.uniFst Toy.qSqrt Toy.mlog0
      Toy.db1 Toy.mod1 Toy.ann1 1500 (1/20) 1 none false 0
      = Except.ok (some ⟨"m", 1, "HGNC", {"db1"}, "tf", [("g", 1)]⟩) := by
    norm_num [module2regulome, enrichedRows, nesSelect, pvariance, mean,
      innerJoin, leadingEdgeCalls, applyMask, enrichMask, baselineOf,
      builtRegulomes, reduce1, scoreFn, noweights, avg2stdVec, Regulome.weight,
      Toy.recW, Toy.leW, Toy.uniFst, Toy.qSqrt, Toy.mlog0, Toy.db1, Toy.mod1,
      Toy.ann1]
  have hb : module2regulome Toy.recW Toy.leW Toy.uniFst Toy.qSqrt Toy.mlog0
      Toy.db1 Toy.mod4b Toy.ann1 1500 (1/20) 1 none false 0
      = Except.ok none := by
    norm_num [module2regulome, enrichedRows, nesSelect, pvariance, mean,
      innerJoin, leadingEdgeCalls, applyMask, enrichMask, baselineOf,
      builtRegulomes, reduce1, scoreFn, noweights, avg2stdVec, Regulome.weight,
      Toy.recW, Toy.leW, Toy.uniFst, Toy.qSqrt, Toy.mlog0, Toy.db1, Toy.mod4b,
      Toy.ann1]
  refine ⟨?_, ?_, ?_⟩
  · norm_num [Regulome.weight, Toy.db1, Toy.mod1, List.lookup]
  · norm_num [Regulome.weight, Toy.db1, Toy.mod4b, List.lookup]
  · rw [ha, hb]
    intro h
    simp at h

/-- C3 (counterexample): the sampled leading-edge baseline is NOT computed over
a contiguous index range of recovery-curve rows starting at 0.  On the matrix
`[[0,0],[4,4]]` with `n_features = 2` and `frac = 1`, the code's baseline
(source lines 70-73, for draw 0) is the SCALAR collapse of the single row 0,
while the claimed range baseline is the per-column curve `[6, 6]`; the two are
different values (different `Baseline` shapes). -/
theorem baseline_range_C3_cex :
    baselineOf Toy.qSqrt [[0, 0], [4, 4]] 2 (some 1) 0
      = Except.ok (Baseline.scalar 0)
  ∧ claimBaselineRange Toy.qSqrt [[0, 0], [4, 4]] 2 1 = Baseline.vec [6, 6]
  ∧ Baseline.scalar (0 : ℚ) ≠ Baseline.vec [6, 6] := by
  have ht : (List.take (Int.toNat 2) ([[0, 0], [4, 4]] : List (List ℚ))).transpose
      = [[0, 4], [0, 4]] := rfl
  refine ⟨?_, ?_, by simp⟩
  · norm_num [baselineOf, mean, pvariance, Toy.qSqrt]
  · norm_num [claimBaselineRange, avg2stdVec, ht, mean, pvariance, Toy.qSqrt]

/-- C3 (amended): when `avgrcc_sample_frac` is set and
`floor(n_features * frac)` is positive, the baseline is computed from a SINGLE
recovery-curve row — the one indexed by the uniform draw of
`np.random.randint(0, floor(n_features * frac))`, an index always below
`floor(n_features * frac)` — and its mean and mean + 2*std collapse to scalars
over that row's entries. -/
theorem baseline_single_row_C3_amended {K : Type} [LinearOrderedField K]
    [FloorRing K] (msqrt : K → K) (rccs : List (List K)) (n : Nat) (frac : K)
    (rand : Nat) (h : 0 < ⌊(n : K) * frac⌋) :
    baselineOf msqrt rccs n (some frac) rand
      = Except.ok (Baseline.scalar
          (mean (rccs.getD (rand % (⌊(n : K) * frac⌋).toNat) []) +
            2 * msqrt (pvariance (rccs.getD (rand % (⌊(n : K) * frac⌋).toNat) []))))
  ∧ rand % (⌊(n : K) * frac⌋).toNat < (⌊(n : K) * frac⌋).toNat := by
  constructor
  · simp only [baselineOf]
    rw [if_neg (not_le.mpr h)]
  · exact Nat.mod_lt _ (by omega)

/-- Witness for the amended C3 statement at a concrete input: two rows, a
fraction of 1 and draw 3, which the deriver reduces to row index 1; the
baseline is the scalar 4. -/
theorem baseline_single_row_C3_witness :
    (0 : ℤ) < ⌊((2 : Nat) : ℚ) * 1⌋
  ∧ baselineOf Toy.qSqrt [[0, 0], [4, 4]] 2 (some 1) 3
      = Except.ok (Baseline.scalar 4) := by
  have h : (0 : ℤ) < ⌊((2 : Nat) : ℚ) * 1⌋ := by norm_num
  refine ⟨h, ?_⟩
  rw [(baseline_single_row_C3_amended Toy.qSqrt [[0, 0], [4, 4]] 2 1 3 h).1]
  norm_num [mean, pvariance, Toy.qSqrt, show (3 % Int.toNat 2) = 1 from rfl,
    List.getD, List.getElem?_cons_succ, List.getElem?_cons_zero,
    Option.getD_some]

/-- C5 (counterexample): the claim's scoring formula disagrees with the code's
score function when the q-value is zero (or NaN) while the orthologous
identity is defined.  At NES = 1, q-value 0, identity one half, source lines
76-79 give the score one half (NES times identity, no log factor), while the
claim's "otherwise" branch gives `1 * (-ln 0)/100 * (1/2) = 0`. -/
theorem score_rule_C5_cex :
    scoreFn Real.log 1 (some 0) (some (1/2)) = 1/2
  ∧ claimScoreC5 Real.log 1 (some 0) (some (1/2)) = 0
  ∧ (1/2 : ℝ) ≠ 0 := by
  refine ⟨?_, ?_, by norm_num⟩
  · simp [scoreFn]
  · simp [claimScoreC5, Real.log_zero]

/-- C5 (amended): the base score equals NES exactly when the q-value is NaN or
exactly zero, and `NES * (-ln q)/100` otherwise; the base is then multiplied by
the orthologous identity whenever the identity is defined (whatever the
q-value branch was).  In particular a NaN-or-zero q-value with undefined
identity gives exactly NES, and q-value `e^-1` with identity one half gives
`NES * 0.01 * 0.5`. -/
theorem score_rule_C5_amended (nes qv o : ℝ) :
    scoreFn Real.log nes (some 0) none = nes
  ∧ scoreFn Real.log nes none none = nes
  ∧ scoreFn Real.log nes (some 0) (some o) = nes * o
  ∧ scoreFn Real.log nes none (some o) = nes * o
  ∧ (qv ≠ 0 → scoreFn Real.log nes (some qv) (some o)
      = nes * -Real.log qv / 100 * o)
  ∧ scoreFn Real.log nes (some (Real.exp (-1))) (some (1/2))
      = nes * (1/100) * (1/2) := by
  refine ⟨by simp [scoreFn], by simp [scoreFn], by simp [scoreFn],
    by simp [scoreFn], ?_, ?_⟩
  · intro h
    simp [scoreFn, h]
  · have hne : Real.exp (-1) ≠ 0 := Real.exp_ne_zero _
    simp [scoreFn, hne, Real.log_exp]
    ring

/-- Witness for the amended C5 statement at concrete inputs, with the nonzero
q-value hypothesis discharged at q-value 3. -/
theorem score_rule_C5_witness :
    scoreFn Real.log 2 (some 0) none = 2
  ∧ ((3 : ℝ) ≠ 0
      ∧ scoreFn Real.log 2 (some 3) (some (1/2)) = 2 * -Real.log 3 / 100 * (1/2))
  ∧ scoreFn Real.log 2 (some (Real.exp (-1))) (some (1/2))
      = 2 * (1/100) * (1/2) :=
  ⟨(score_rule_C5_amended 2 3 (1/2)).1,
    ⟨by norm_num, (score_rule_C5_amended 2 3 (1/2)).2.2.2.2.1 (by norm_num)⟩,
    (score_rule_C5_amended 2 3 (1/2)).2.2.2.2.2⟩

/-- C6: with a non-degenerate standard deviation, (a) a feature row enters the
enriched set if and only if its NES, the AUC z-score `(a - mean)/std`, is at
least `nes_threshold` (source line 51 selects with `ness >= nes_threshold`),
and (b) every row reaching a leading-edge invocation — hence scoring and
regulome construction — carries an NES at least `nes_threshold`: no
sub-threshold feature survives the selection, the annotation join, or the zip
of source line 83. -/
theorem enriched_iff_nes_ge_C6 {K : Type} [LinearOrderedField K]
    (msqrt : K → K) (features : List String) (aucs : List K) (t : K)
    (rccs : List (List K)) (rankings : List (List Nat)) (tf : String)
    (ann : List (AnnRow K)) (hσ : msqrt (pvariance aucs) ≠ 0) :
    (∀ f a, (f, a) ∈ features.zip aucs →
      ((⟨f, (a - mean aucs) / msqrt (pvariance aucs), a⟩ : EnrichedRow K)
          ∈ enrichedRows msqrt features aucs t
        ↔ t ≤ (a - mean aucs) / msqrt (pvariance aucs)))
  ∧ ∀ c ∈ leadingEdgeCalls msqrt aucs t rccs rankings
        (innerJoin tf (enrichedRows msqrt features aucs t) ann),
      t ≤ c.1.nes := by
  constructor
  · intro f a hfa
    constructor
    · intro hmem
      exact nes_ge_of_mem_enrichedRows hσ hmem
    · intro ht
      apply List.mem_map.mpr
      refine ⟨(f, a), List.mem_filter.mpr ⟨hfa, ?_⟩, rfl⟩
      unfold nesSelect
      rw [if_neg hσ]
      exact decide_eq_true ht
  · intro c hc
    simp only [leadingEdgeCalls] at hc
    rcases List.mem_map.mp hc with ⟨p, hp, rfl⟩
    have h1 : p.1 ∈ innerJoin tf (enrichedRows msqrt features aucs t) ann :=
      (List.of_mem_zip hp).1
    simp only [innerJoin] at h1
    rcases List.mem_flatMap.mp h1 with ⟨e, he, hj⟩
    rcases List.mem_map.mp hj with ⟨arow, _, hrow⟩
    have hnes : p.1.nes = e.nes := by rw [← hrow]
    show t ≤ p.1.nes
    rw [hnes]
    exact nes_ge_of_mem_enrichedRows hσ he

/-- Witness for C6 on the two-feature toy pipeline (AUCs 0 and 8, std 4,
threshold 1). -/
theorem enriched_iff_nes_ge_C6_witness :
    (∀ f a, (f, a) ∈ (["f0", "f1"] : List String).zip ([0, 8] : List ℚ) →
      ((⟨f, (a - mean [0, 8]) / Toy.qSqrt (pvariance [0, 8]), a⟩ : EnrichedRow ℚ)
          ∈ enrichedRows Toy.qSqrt ["f0", "f1"] [0, 8] 1
        ↔ 1 ≤ (a - mean [0, 8]) / Toy.qSqrt (pvariance [0, 8])))
  ∧ ∀ c ∈ leadingEdgeCalls Toy.qSqrt [0, 8] 1 [[0], [0]] [[1], [2]]
        (innerJoin "tf" (enrichedRows Toy.qSqrt ["f0", "f1"] [0, 8] 1) Toy.ann1),
      1 ≤ c.1.nes :=
  enriched_iff_nes_ge_C6 Toy.qSqrt ["f0", "f1"] [0, 8] 1 [[0], [0]] [[1], [2]]
    "tf" Toy.ann1 (by norm_num [Toy.qSqrt, pvariance, mean])

/-- C7: the single-pair deriver returns an absent value (`Except.ok none` —
never a raised fault, never an empty-but-present regulome) on each statistical
non-result path: (i) an empty feature set (the recovery kernel then returns no
AUC rows), (ii) degenerate AUC variance (zero variance, so a zero standard
deviation: every z-score is the NaN `0/0`, which the IEEE comparison rejects),
(iii) no feature reaching the NES threshold (source lines 57-58), and (iv) an
empty annotation join (source lines 62-63).  All four returns happen before
the sampling code, so no `ValueError` can intervene. -/
theorem none_on_degenerate_C7 {K : Type} [LinearOrderedField K] [FloorRing K]
    [Inhabited K]
    (recovery : RankTable → Nat → List K → Nat → K → List (List K) × List K)
    (leading_edge : List K → Baseline K → List Nat → List String →
      Regulome K → List (String × K))
    (union : Regulome K → Regulome K → Regulome K) (msqrt mlog : K → K)
    (db : RankingDatabase K) (module : Regulome K) (motif_ann : List (AnnRow K))
    (rank_threshold : Nat) (auc_threshold nes_threshold : K)
    (avgrcc_sample_frac : Option K) (weighted_recovery : Bool) (rand : Nat) :
    ((recovery (db.load module) db.total_genes
        ((db.load module).genes.map module.weight) rank_threshold
        auc_threshold).2 = [] →
      module2regulome recovery leading_edge union msqrt mlog db module motif_ann
        rank_threshold auc_threshold nes_threshold avgrcc_sample_frac
        weighted_recovery rand = Except.ok none)
  ∧ (pvariance (recovery (db.load module) db.total_genes
        ((db.load module).genes.map module.weight) rank_threshold
        auc_threshold).2 = 0 → msqrt 0 = 0 →
      module2regulome recovery leading_edge union msqrt mlog db module motif_ann
        rank_threshold auc_threshold nes_threshold avgrcc_sample_frac
        weighted_recovery rand = Except.ok none)
  ∧ (enrichedRows msqrt (db.load module).features
        (recovery (db.load module) db.total_genes
          ((db.load module).genes.map module.weight) rank_threshold
          auc_threshold).2 nes_threshold = [] →
      module2regulome recovery leading_edge union msqrt mlog db module motif_ann
        rank_threshold auc_threshold nes_threshold avgrcc_sample_frac
        weighted_recovery rand = Except.ok none)
  ∧ (innerJoin module.transcription_factor
        (enrichedRows msqrt (db.load module).features
          (recovery (db.load module) db.total_genes
            ((db.load module).genes.map module.weight) rank_threshold
            auc_threshold).2 nes_threshold) motif_ann = [] →
      module2regulome recovery leading_edge union msqrt mlog db module motif_ann
        rank_threshold auc_threshold nes_threshold avgrcc_sample_frac
        weighted_recovery rand = Except.ok none) := by
  have key : enrichedRows msqrt (db.load module).features
      (recovery (db.load module) db.total_genes
        ((db.load module).genes.map module.weight) rank_threshold
        auc_threshold).2 nes_threshold = [] →
      module2regulome recovery leading_edge union msqrt mlog db module motif_ann
        rank_threshold auc_threshold nes_threshold avgrcc_sample_frac
        weighted_recovery rand = Except.ok none := by
    intro h
    simp [module2regulome, h]
  refine ⟨?_, ?_, key, ?_⟩
  · intro h
    apply key
    simp [enrichedRows, h]
  · intro hvar hms
    apply key
    have hσ : msqrt (pvariance (recovery (db.load module) db.total_genes
        ((db.load module).genes.map module.weight) rank_threshold
        auc_threshold).2) = 0 := by rw [hvar]; exact hms
    simp only [enrichedRows]
    have hfil : ((db.load module).features.zip
        (recovery (db.load module) db.total_genes
          ((db.load module).genes.map module.weight) rank_threshold
          auc_threshold).2).filter
        (fun p => nesSelect
          (msqrt (pvariance (recovery (db.load module) db.total_genes
            ((db.load module).genes.map module.weight) rank_threshold
            auc_threshold).2))
          (mean (recovery (db.load module) db.total_genes
            ((db.load module).genes.map module.weight) rank_threshold
            auc_threshold).2) nes_threshold p.2) = [] := by
      refine List.filter_eq_nil_iff.mpr (fun p hp => ?_)
      have hpa : p.2 = mean (recovery (db.load module) db.total_genes
          ((db.load module).genes.map module.weight) rank_threshold
          auc_threshold).2 :=
        eq_mean_of_pvariance_eq_zero hvar (List.of_mem_zip hp).2
      unfold nesSelect
      rw [if_pos hσ]
      simp [hpa]
    rw [hfil]
    rfl
  · intro h
    by_cases he : enrichedRows msqrt (db.load module).features
        (recovery (db.load module) db.total_genes
          ((db.load module).genes.map module.weight) rank_threshold
          auc_threshold).2 nes_threshold = []
    · exact key he
    · simp [module2regulome, he, h]

/-- Witness for C7's degenerate-variance branch: constant AUCs `[3, 3]` give
zero variance, a zero square root, and an absent result. -/
theorem none_on_degenerate_C7_witness :
    pvariance (Toy.rec7 (Toy.db1.load Toy.mod1) Toy.db1.total_genes
        ((Toy.db1.load Toy.mod1).genes.map Toy.mod1.weight) 1500 (1/20)).2 = 0
  ∧ Toy.qSqrt 0 = 0
  ∧ module2regulome Toy.rec7 Toy.leW Toy.uniFst Toy.qSqrt Toy.mlog0 Toy.db1
      Toy.mod1 Toy.ann1 1500 (1/20) 1 none false 0 = Except.ok none := by
  have h1 : pvariance (Toy.rec7 (Toy.db1.load Toy.mod1) Toy.db1.total_genes
      ((Toy.db1.load Toy.mod1).genes.map Toy.mod1.weight) 1500 (1/20)).2 = 0 := by
    norm_num [Toy.rec7, pvariance, mean]
  have h2 : Toy.qSqrt 0 = 0 := by norm_num [Toy.qSqrt]
  exact ⟨h1, h2,
    (none_on_degenerate_C7 Toy.rec7 Toy.leW Toy.uniFst Toy.qSqrt Toy.mlog0
      Toy.db1 Toy.mod1 Toy.ann1 1500 (1/20) 1 none false 0).2.1 h1 h2⟩

/-- C8: every per-feature regulome built at source lines 84-91 carries
`name = module.name`, `nomenclature = module.nomenclature`,
`transcription_factor = module.transcription_factor`,
`context = module.context ∪ {db.name}`, a score computed by the step-8 rule
from its annotation-join row, and the gene-weight mapping returned by the
leading-edge kernel for the arguments supplied while processing that row. -/
theorem built_regulome_fields_C8 {K : Type} [LinearOrderedField K]
    (mlog : K → K)
    (leading_edge : List K → Baseline K → List Nat → List String →
      Regulome K → List (String × K))
    (db : RankingDatabase K) (module : Regulome K) (genes : List String)
    (avg2stdrcc : Baseline K) (weighted_recovery : Bool)
    (calls : List (JoinedRow K × List K × List Nat)) (r : Regulome K)
    (hr : r ∈ builtRegulomes mlog leading_edge db module genes avg2stdrcc
      weighted_recovery calls) :
    r.name = module.name
  ∧ r.nomenclature = module.nomenclature
  ∧ r.transcription_factor = module.transcription_factor
  ∧ r.context = module.context ∪ {db.name}
  ∧ ∃ c ∈ calls, r.score = scoreFn mlog c.1.nes c.1.qval c.1.orth
      ∧ r.gene2weights = leading_edge c.2.1 avg2stdrcc c.2.2 genes
          (if weighted_recovery then module else noweights module) := by
  simp only [builtRegulomes] at hr
  rcases List.mem_map.mp hr with ⟨c, hc, rfl⟩
  exact ⟨rfl, rfl, rfl, rfl, c, hc, rfl, rfl⟩

/-- Witness for C8 on a one-call toy list. -/
theorem built_regulome_fields_C8_witness :
    (⟨"m", 1, "HGNC", {"db1"}, "tf", [("g", 1)]⟩ : Regulome ℚ).name
        = Toy.mod1.name
  ∧ (⟨"m", 1, "HGNC", {"db1"}, "tf", [("g", 1)]⟩ : Regulome ℚ).nomenclature
        = Toy.mod1.nomenclature
  ∧ (⟨"m", 1, "HGNC", {"db1"}, "tf", [("g", 1)]⟩ : Regulome ℚ).transcription_factor
        = Toy.mod1.transcription_factor
  ∧ (⟨"m", 1, "HGNC", {"db1"}, "tf", [("g", 1)]⟩ : Regulome ℚ).context
        = Toy.mod1.context ∪ {Toy.db1.name}
  ∧ ∃ c ∈ ([(⟨"f1", 1, 8, none, none⟩, [7], [9])] :
        List (JoinedRow ℚ × List ℚ × List Nat)),
      (⟨"m", 1, "HGNC", {"db1"}, "tf", [("g", 1)]⟩ : Regulome ℚ).score
          = scoreFn Toy.mlog0 c.1.nes c.1.qval c.1.orth
      ∧ (⟨"m", 1, "HGNC", {"db1"}, "tf", [("g", 1)]⟩ : Regulome ℚ).gene2weights
          = Toy.leW c.2.1 (Baseline.vec [0]) c.2.2 ["g"]
              (if false then Toy.mod1 else noweights Toy.mod1) :=
  built_regulome_fields_C8 Toy.mlog0 Toy.leW Toy.db1 Toy.mod1 ["g"]
    (Baseline.vec [0]) false [(⟨"f1", 1, 8, none, none⟩, [7], [9])]
    ⟨"m", 1, "HGNC", {"db1"}, "tf", [("g", 1)]⟩
    (by simp [builtRegulomes, scoreFn, noweights, Toy.leW, Toy.mlog0, Toy.mod1,
      Toy.db1])

/-- C9: no batch run returns a multiset of regulomes at ANY worker count, so
worker counts 1 and 4 cannot return equal multisets: once the per-pair tasks
have completed, the collection node of source line 126 applies
`partial(filter, function=not_none)` and builtin `filter` rejects the keyword
argument, raising `TypeError` out of `compute` on every call.  At a concrete
input — one database, one module, an enriched and annotated feature, no
sampling — the runs with worker counts 1 and 4 both produce that same raised
TypeError instead of regulome multisets. -/
theorem batch_raises_any_worker_count_C9 :
    derive_regulomes Toy.recN Toy.leW Toy.uniFst Toy.qSqrt Toy.mlog0
      Toy.loader1 [Toy.db1] [Toy.mod1] "motifs.tbl" 1500 (1/20) 1 (1/1000) 0
      none false (some 1) (fun _ => 0)
      = Except.error "TypeError: filter() takes no keyword arguments"
  ∧ derive_regulomes Toy.recN Toy.leW Toy.uniFst Toy.qSqrt Toy.mlog0
      Toy.loader1 [Toy.db1] [Toy.mod1] "motifs.tbl" 1500 (1/20) 1 (1/1000) 0
      none false (some 4) (fun _ => 0)
      = Except.error "TypeError: filter() takes no keyword arguments" := by
  have h2 : module2regulome Toy.recN Toy.leW Toy.uniFst Toy.qSqrt Toy.mlog0
      Toy.db1 Toy.mod1 Toy.ann1 1500 (1/20) 1 none false 0
      = Except.ok (some ⟨"m", 1, "HGNC", {"db1"}, "tf", [("g", 1)]⟩) := by
    norm_num [module2regulome, enrichedRows, nesSelect, pvariance, mean,
      innerJoin, leadingEdgeCalls, applyMask, enrichMask, baselineOf,
      builtRegulomes, reduce1, scoreFn, noweights, avg2stdVec, Regulome.weight,
      Toy.recN, Toy.leW, Toy.uniFst, Toy.qSqrt, Toy.mlog0, Toy.db1, Toy.mod1,
      Toy.ann1]
  have h : derive_regulomes Toy.recN Toy.leW Toy.uniFst Toy.qSqrt Toy.mlog0
      Toy.loader1 [Toy.db1] [Toy.mod1] "motifs.tbl" 1500 (1/20) 1 (1/1000) 0
      none false (some 1) (fun _ => 0)
      = Except.error "TypeError: filter() takes no keyword arguments" := by
    norm_num [derive_regulomes, deriveTask, Toy.loader1, List.mapM,
      List.mapM.loop]
    rw [h2]
    rfl
  exact ⟨h, h⟩

/-- C10: with `avgrcc_sample_frac` set, a non-empty annotation join, and
`floor(n_features * frac)` non-positive, the single-pair deriver raises (the
embedded `ValueError: low >= high` of `np.random.randint(0, 0)`, source line
71) instead of returning a regulome or an absent value. -/
theorem raises_on_empty_randint_C10 {K : Type} [LinearOrderedField K]
    [FloorRing K] [Inhabited K]
    (recovery : RankTable → Nat → List K → Nat → K → List (List K) × List K)
    (leading_edge : List K → Baseline K → List Nat → List String →
      Regulome K → List (String × K))
    (union : Regulome K → Regulome K → Regulome K) (msqrt mlog : K → K)
    (db : RankingDatabase K) (module : Regulome K) (motif_ann : List (AnnRow K))
    (rank_threshold : Nat) (auc_threshold nes_threshold frac : K)
    (weighted_recovery : Bool) (rand : Nat)
    (hann : innerJoin module.transcription_factor
        (enrichedRows msqrt (db.load module).features
          (recovery (db.load module) db.total_genes
            ((db.load module).genes.map module.weight) rank_threshold
            auc_threshold).2 nes_threshold) motif_ann ≠ [])
    (hm : ⌊((db.load module).features.length : K) * frac⌋ ≤ 0) :
    module2regulome recovery leading_edge union msqrt mlog db module motif_ann
      rank_threshold auc_threshold nes_threshold (some frac) weighted_recovery
      rand = Except.error "ValueError: low >= high" := by
  have he : enrichedRows msqrt (db.load module).features
      (recovery (db.load module) db.total_genes
        ((db.load module).genes.map module.weight) rank_threshold
        auc_threshold).2 nes_threshold ≠ [] := by
    intro h0
    apply hann
    rw [h0]
    rfl
  simp only [module2regulome]
  rw [if_neg he, if_neg hann]
  simp only [baselineOf]
  rw [if_pos hm]

/-- Witness for C10: three features, fraction one quarter, so the sampling
range is `[0, floor(3/4)) = [0, 0)` and the deriver errors although feature
"f2" is enriched and annotated. -/
theorem raises_on_empty_randint_C10_witness :
    innerJoin Toy.mod2.transcription_factor
        (enrichedRows Toy.qSqrt (Toy.db2.load Toy.mod2).features
          (Toy.rec2 (Toy.db2.load Toy.mod2) Toy.db2.total_genes
            ((Toy.db2.load Toy.mod2).genes.map Toy.mod2.weight) 1500
            (1/20)).2 1) Toy.ann2 ≠ []
  ∧ ⌊((Toy.db2.load Toy.mod2).features.length : ℚ) * (1/4)⌋ ≤ 0
  ∧ module2regulome Toy.rec2 Toy.leRC Toy.uniFst Toy.qSqrt Toy.mlog0 Toy.db2
      Toy.mod2 Toy.ann2 1500 (1/20) 1 (some (1/4)) false 0
    = Except.error "ValueError: low >= high" := by
  have hval : innerJoin Toy.mod2.transcription_factor
      (enrichedRows Toy.qSqrt (Toy.db2.load Toy.mod2).features
        (Toy.rec2 (Toy.db2.load Toy.mod2) Toy.db2.total_genes
          ((Toy.db2.load Toy.mod2).genes.map Toy.mod2.weight) 1500
          (1/20)).2 1) Toy.ann2
      = [⟨"f2", 1, 6, none, none⟩] := by
    norm_num [innerJoin, enrichedRows, nesSelect, pvariance, mean, Toy.rec2,
      Toy.db2, Toy.mod2, Toy.ann2, Toy.qSqrt, List.filter]
    rfl
  have h1 : innerJoin Toy.mod2.transcription_factor
      (enrichedRows Toy.qSqrt (Toy.db2.load Toy.mod2).features
        (Toy.rec2 (Toy.db2.load Toy.mod2) Toy.db2.total_genes
          ((Toy.db2.load Toy.mod2).genes.map Toy.mod2.weight) 1500
          (1/20)).2 1) Toy.ann2 ≠ [] := by
    rw [hval]
    simp
  have h2 : ⌊((Toy.db2.load Toy.mod2).features.length : ℚ) * (1/4)⌋ ≤ 0 := by
    norm_num [Toy.db2]
  exact ⟨h1, h2,
    raises_on_empty_randint_C10 Toy.rec2 Toy.leRC Toy.uniFst Toy.qSqrt Toy.mlog0
      Toy.db2 Toy.mod2 Toy.ann2 1500 (1/20) 1 (1/4) false 0 h1 h2⟩

end PyScenic
